import Mathlib

/-!
Verification of the camera capture-and-enhance pipeline of the document
scanner module (static/js camera module).  The per-pixel enhancement,
the camera stream state machine, device availability checking, and the
save/submit path are embedded as executable Lean definitions translated
from the JavaScript source, and the specified properties are proved
about them.

Numeric model: JavaScript number arithmetic on the small dyadic
constants involved here is modelled by exact rational arithmetic; the
store into a Uint8ClampedArray slot is modelled by the ECMAScript
ToUint8Clamp conversion (clamp to [0, 255], round to nearest integer,
ties to even).
-/

namespace Scanner

/-- ECMAScript ToUint8Clamp: the conversion applied when a JavaScript
number is stored into a Uint8ClampedArray element, as in the writes
data[i] = Math.min(255, Math.max(0, r)) of enhanceImageForOCR.
Values at or below 0 become 0, values at or above 255 become 255, and
everything else is rounded to the nearest integer with ties going to
the even neighbour. -/
def toUint8Clamp (x : ℚ) : ℕ :=
  if x ≤ 0 then 0
  else if 255 ≤ x then 255
  else
    let f : ℕ := (⌊x⌋).toNat
    if (f : ℚ) + 1/2 < x then f + 1
    else if x < (f : ℚ) + 1/2 then f
    else if f % 2 = 0 then f else f + 1

/-- Contrast factor used by enhanceImageForOCR (the literal 1.4). -/
def contrastFactor : ℚ := 7/5

/-- Brightness factor used by enhanceImageForOCR (the literal 1.1). -/
def brightnessFactor : ℚ := 11/10

/-- Per-channel body of the loop in enhanceImageForOCR: contrast about
128, then brightness, then the clamped store into the pixel array. -/
def enhanceChannel (v : ℕ) : ℕ :=
  let r : ℚ := ((v : ℚ) - 128) * contrastFactor + 128
  let r2 : ℚ := r * brightnessFactor
  toUint8Clamp (min 255 (max 0 r2))

/-- Channel transform in the opposite order (brightness applied before
the contrast step).  Modelled from the spec: the specification states
that swapping the order of the two adjustments is not equivalent, and
gives the swapped formula clamp(0, 255, ((v * 1.1) - 128) * 1.4 + 128);
this definition exists only to be compared with `enhanceChannel`. -/
def reversedChannel (v : ℕ) : ℕ :=
  toUint8Clamp (min 255 (max 0 (((v : ℚ) * brightnessFactor - 128) * contrastFactor + 128)))

/-- ImageData as handed to enhanceImageForOCR: dimensions plus the flat
RGBA byte array data (stride 4: R, G, B, A, R, G, B, A, ...). -/
structure ImageData where
  width : ℕ
  height : ℕ
  data : List ℕ
deriving DecidableEq

/-- Loop of enhanceImageForOCR over the flat array: indices i, i+1, i+2
of every group of four are transformed, index i+3 (alpha) is skipped. -/
def enhanceData : List ℕ → List ℕ
  | r :: g :: b :: a :: rest =>
      enhanceChannel r :: enhanceChannel g :: enhanceChannel b :: a :: enhanceData rest
  | [r, g, b] => [enhanceChannel r, enhanceChannel g, enhanceChannel b]
  | [r, g] => [enhanceChannel r, enhanceChannel g]
  | [r] => [enhanceChannel r]
  | [] => []

/-- enhanceImageForOCR: transforms the pixel data of the given buffer
in place and returns the same buffer object. -/
def enhanceImageForOCR (img : ImageData) : ImageData :=
  { img with data := enhanceData img.data }

/-- Camera facing mode: the module variable cameraFacing holds the
string user or environment. -/
inductive CameraFacing
  | user
  | environment
deriving DecidableEq

/-- Toggle performed by switchCamera on cameraFacing. -/
def toggleFacing : CameraFacing → CameraFacing
  | CameraFacing.environment => CameraFacing.user
  | CameraFacing.user => CameraFacing.environment

/-- View state of the scanner page: live shows the camera view and the
capture controls, preview shows the still preview and its controls. -/
inductive ViewState
  | live
  | preview
deriving DecidableEq

/-- Request body sent by saveDocument to the save endpoint
(POST /scanner/capture). -/
structure SaveRequest where
  image : ImageData
  title : String
  folder_id : Option String
deriving DecidableEq

/-- Module state of the camera scanner: the held stream handle, the
active flag, the facing mode, the captured image, and the view shown.
The field openStreams counts platform stream resources currently
acquired and not yet released (for the resource invariant); the field
acquisitions logs every getUserMedia request with the facing it asked
for; saveRequests logs every request handed to the save endpoint. -/
structure ScannerState where
  openStreams : ℕ
  stream : Option ℕ
  cameraActive : Bool
  cameraFacing : CameraFacing
  capturedImage : Option ImageData
  view : ViewState
  acquisitions : List CameraFacing
  saveRequests : List SaveRequest
deriving DecidableEq

/-- Initial module state: stream = null, cameraActive = false,
cameraFacing = environment, capturedImage = null. -/
def initState : ScannerState :=
  { openStreams := 0
    stream := none
    cameraActive := false
    cameraFacing := CameraFacing.environment
    capturedImage := none
    view := ViewState.live
    acquisitions := []
    saveRequests := [] }

/-- stopCamera: if a stream is held, stop its tracks (releasing the
platform resource) and null the handle; always clear cameraActive. -/
def stopCamera (s : ScannerState) : ScannerState :=
  let s1 :=
    match s.stream with
    | some _ => { s with openStreams := s.openStreams - 1, stream := none }
    | none => s
  { s1 with cameraActive := false }

/-- Outcome of the getUserMedia request made by startCamera: success
returns a fresh stream handle, failure covers the NotAllowedError,
NotFoundError, NotReadableError and unknown branches (all of which
leave no stream acquired). -/
inductive StartOutcome
  | success (handle : ℕ)
  | failure
deriving DecidableEq

/-- Release step at the top of startCamera: if a previous stream is
held it is stopped before any new acquisition is attempted. -/
def startReleaseHeld (s : ScannerState) : ScannerState :=
  if s.stream.isSome then stopCamera s else s

/-- startCamera: release any previously held stream, request camera
access with constraints derived from the current facing (logged in
acquisitions), and on success record the new stream, set cameraActive
and show the live camera view; on failure only the start control is
re-enabled and no stream is held. -/
def startCamera (s : ScannerState) (o : StartOutcome) : ScannerState :=
  let s1 := startReleaseHeld s
  let s2 := { s1 with acquisitions := s1.acquisitions ++ [s1.cameraFacing] }
  match o with
  | StartOutcome.success h =>
      { s2 with
        openStreams := s2.openStreams + 1
        stream := some h
        cameraActive := true
        view := ViewState.live }
  | StartOutcome.failure => s2

/-- switchCamera: toggle the facing mode, and if the camera is active
restart it (startCamera) with the new facing. -/
def switchCamera (s : ScannerState) (o : StartOutcome) : ScannerState :=
  let s1 := { s with cameraFacing := toggleFacing s.cameraFacing }
  if s1.cameraActive then startCamera s1 o else s1

/-- Result reported by capturePhoto: notActive is the early return with
the camera-not-active error, rasterFailed is the catch branch around
the canvas work, captured is the successful path. -/
inductive CaptureResult
  | notActive
  | rasterFailed
  | captured
deriving DecidableEq

/-- capturePhoto: if the camera is not active, show an error and return
with nothing changed; otherwise rasterize the current video frame,
enhance it, store the encoded result as the captured image, switch the
page to the preview view, and stop the camera to save resources.  The
frame argument is the rasterized current video frame; rasterOk models
whether the canvas work inside the try block succeeds. -/
def capturePhoto (s : ScannerState) (frame : ImageData) (rasterOk : Bool) :
    ScannerState × CaptureResult :=
  if s.cameraActive = false then (s, CaptureResult.notActive)
  else if rasterOk = false then (s, CaptureResult.rasterFailed)
  else
    let enhanced := enhanceImageForOCR frame
    let s1 := { s with capturedImage := some enhanced, view := ViewState.preview }
    (stopCamera s1, CaptureResult.captured)

/-- retakePhoto: discard the captured image, switch the page back to
the live camera view, and start the camera again (with the facing mode
left unchanged since the last start). -/
def retakePhoto (s : ScannerState) (o : StartOutcome) : ScannerState :=
  let s1 := { s with capturedImage := none, view := ViewState.live }
  startCamera s1 o

/-- Result reported by saveDocument: nothingToSave is the early return
when no captured image is held, sent means a request was handed to the
save endpoint. -/
inductive SaveResult
  | nothingToSave
  | sent
deriving DecidableEq

/-- saveDocument: if no captured image is held, show an error and
return without contacting the endpoint.  Otherwise the title is the
trimmed text input, defaulting to a generated scan title when empty,
and the folder id is the select value, defaulting to null when empty;
the request is then posted to the save endpoint.  The arguments
titleVal and folderVal model the DOM elements (none when the element
is absent, otherwise the value string); dateStr models the formatted
current date used in the default title. -/
def saveDocument (s : ScannerState) (titleVal folderVal : Option String)
    (dateStr : String) : ScannerState × SaveResult :=
  match s.capturedImage with
  | none => (s, SaveResult.nothingToSave)
  | some img =>
      let trimmed := (match titleVal with | some t => t.trim | none => "")
      let title := if trimmed = "" then "Скан " ++ dateStr else trimmed
      let folderRaw := (match folderVal with | some f => f | none => "")
      let folderId := if folderRaw = "" then none else some folderRaw
      ({ s with saveRequests := s.saveRequests ++ [⟨img, title, folderId⟩] },
       SaveResult.sent)

/-- Kind of a media device as reported by enumerateDevices. -/
inductive DeviceKind
  | videoinput
  | audioinput
  | audiooutput
deriving DecidableEq

/-- Device descriptor returned by enumerateDevices (only the kind is
inspected by the module). -/
structure MediaDeviceInfo where
  kind : DeviceKind
deriving DecidableEq

/-- Outcome of checkCameraAvailability as observable on the page:
usable is true exactly when the start control is left enabled, and
multiple is true exactly when the switch-camera control is shown. -/
structure AvailabilityOutcome where
  usable : Bool
  multiple : Bool
deriving DecidableEq

/-- checkCameraAvailability: with no mediaDevices/getUserMedia support
the start control is disabled; otherwise the devices are enumerated
(enumResult models that call, error being the caught exception which
is only logged); with zero video inputs the start control is disabled,
and the switch control is shown exactly when more than one video input
was found. -/
def checkCameraAvailability (supported : Bool)
    (enumResult : Except Unit (List MediaDeviceInfo)) : AvailabilityOutcome :=
  if supported = false then { usable := false, multiple := false }
  else
    match enumResult with
    | Except.error _ => { usable := true, multiple := false }
    | Except.ok devices =>
        let videoDevices := devices.filter (fun d => d.kind == DeviceKind.videoinput)
        if videoDevices.length = 0 then { usable := false, multiple := false }
        else { usable := true, multiple := decide (videoDevices.length > 1) }

/-- Number of video-input devices actually enumerated by a run of
checkCameraAvailability: zero when the capability is missing (no
enumeration happens) or when enumeration throws, otherwise the number
of videoinput entries in the returned device list. -/
def enumeratedVideoCount (supported : Bool)
    (enumResult : Except Unit (List MediaDeviceInfo)) : ℕ :=
  if supported = false then 0
  else
    match enumResult with
    | Except.error _ => 0
    | Except.ok devices => (devices.filter (fun d => d.kind == DeviceKind.videoinput)).length

/-- Operations of the camera stream state machine, each carrying the
data of its external interaction. -/
inductive Op
  | start (o : StartOutcome)
  | switch (o : StartOutcome)
  | stop
  | capture (frame : ImageData) (rasterOk : Bool)
deriving DecidableEq

/-- Apply one operation to the module state. -/
def applyOp (s : ScannerState) : Op → ScannerState
  | Op.start o => startCamera s o
  | Op.switch o => switchCamera s o
  | Op.stop => stopCamera s
  | Op.capture frame rasterOk => (capturePhoto s frame rasterOk).1

/-- Run a finite sequence of operations from a given state. -/
def runOps (s : ScannerState) : List Op → ScannerState
  | [] => s
  | op :: rest => runOps (applyOp s op) rest

/-- Number of stream handles the module currently holds. -/
def heldCount (s : ScannerState) : ℕ :=
  match s.stream with
  | some _ => 1
  | none => 0

/-- Resource invariant: the number of acquired platform streams equals
the number of handles the module holds, and the active flag implies a
stream is held. -/
def resInv (s : ScannerState) : Prop :=
  s.openStreams = heldCount s ∧ (s.cameraActive = true → s.stream.isSome = true)

theorem toUint8Clamp_le (x : ℚ) : toUint8Clamp x ≤ 255 := by
  unfold toUint8Clamp
  split
  · omega
  · split
    · omega
    · rename_i h1 h2
      have hx : x < 255 := not_le.mp h2
      have hq : ((⌊x⌋ : ℚ)) < 255 := lt_of_le_of_lt (Int.floor_le x) hx
      have hz : ⌊x⌋ < 255 := by exact_mod_cast hq
      have hn : (⌊x⌋).toNat ≤ 254 := by omega
      dsimp only
      split
      · omega
      · split
        · omega
        · split <;> omega

theorem enhanceChannel_le (v : ℕ) : enhanceChannel v ≤ 255 :=
  toUint8Clamp_le _

theorem enhanceData_length (d : List ℕ) : (enhanceData d).length = d.length := by
  induction d using enhanceData.induct <;> simp [enhanceData, *]

theorem enhanceData_getElem (d : List ℕ) (i : ℕ) :
    (enhanceData d)[i]? = if i % 4 = 3 then d[i]? else (d[i]?).map enhanceChannel := by
  induction d using enhanceData.induct generalizing i with
  | case1 r g b a rest ih =>
      rcases i with _ | _ | _ | _ | i
      · simp [enhanceData]
      · simp [enhanceData]
      · simp [enhanceData]
      · simp [enhanceData]
      · simp only [enhanceData, List.getElem?_cons_succ]
        rw [ih]
        have hmod : (i + 1 + 1 + 1 + 1) % 4 = i % 4 := by omega
        rw [hmod]
  | case2 r g b =>
      rcases i with _ | _ | _ | i <;> simp [enhanceData]
  | case3 r g =>
      rcases i with _ | _ | i <;> simp [enhanceData]
  | case4 r =>
      rcases i with _ | i <;> simp [enhanceData]
  | case5 =>
      simp [enhanceData]

theorem enhanceChannel_eval_zero : enhanceChannel 0 = 0 := by
  unfold enhanceChannel toUint8Clamp
  norm_num [contrastFactor, brightnessFactor, min_def, max_def]

theorem enhanceChannel_eval_midpoint : enhanceChannel 128 = 141 := by
  unfold enhanceChannel toUint8Clamp
  norm_num [contrastFactor, brightnessFactor, min_def, max_def]
  simp
  norm_num

theorem enhanceChannel_eval_top : enhanceChannel 255 = 255 := by
  unfold enhanceChannel toUint8Clamp
  norm_num [contrastFactor, brightnessFactor, min_def, max_def]

theorem enhanceChannel_eval_hundred : enhanceChannel 100 = 98 := by
  unfold enhanceChannel toUint8Clamp
  norm_num [contrastFactor, brightnessFactor, min_def, max_def]
  simp
  norm_num

theorem reversedChannel_eval_hundred : reversedChannel 100 = 103 := by
  unfold reversedChannel toUint8Clamp
  norm_num [contrastFactor, brightnessFactor, min_def, max_def]
  simp
  norm_num

/-- Claim C1: for every RGBA pixel buffer and every RGB channel byte v
in [0, 255], enhance maps v to clamp(0, 255, ((v - 128) * 1.4 + 128) * 1.1)
(with the clamped rounding store of the pixel array); the transform is
deterministic (equal input buffers yield equal output buffers), total
for every input byte (the embedding is a total function), and every
output channel value lies in [0, 255] (values are naturals, so the
lower bound is by type). -/
theorem enhance_formula_det_total_bounded
    (img img2 : ImageData) (i v : ℕ)
    (hdet : img = img2) (hv : img.data[i]? = some v) (hrgb : i % 4 ≠ 3)
    (hbyte : v ≤ 255) :
    enhanceImageForOCR img = enhanceImageForOCR img2 ∧
    (enhanceImageForOCR img).data[i]? =
      some (toUint8Clamp (min 255 (max 0 ((((v : ℚ) - 128) * (7/5) + 128) * (11/10))))) ∧
    (enhanceImageForOCR img).data[i]?.getD 0 ≤ 255 := by
  have hdata : (enhanceImageForOCR img).data[i]? = some (enhanceChannel v) := by
    show (enhanceData img.data)[i]? = _
    rw [enhanceData_getElem, if_neg hrgb, hv]
    rfl
  refine ⟨by rw [hdet], ?_, ?_⟩
  · rw [hdata]
    rfl
  · rw [hdata]
    exact enhanceChannel_le v

/-- Witness for C1 at a concrete one-pixel buffer. -/
theorem enhance_formula_det_total_bounded_witness :
    ((⟨1, 1, [10, 20, 30, 40]⟩ : ImageData)).data[0]? = some 10 ∧
    (0 : ℕ) % 4 ≠ 3 ∧ (10 : ℕ) ≤ 255 ∧
    (enhanceImageForOCR ⟨1, 1, [10, 20, 30, 40]⟩ =
        enhanceImageForOCR ⟨1, 1, [10, 20, 30, 40]⟩ ∧
      (enhanceImageForOCR ⟨1, 1, [10, 20, 30, 40]⟩).data[0]? =
        some (toUint8Clamp (min 255 (max 0 ((((10 : ℚ) - 128) * (7/5) + 128) * (11/10))))) ∧
      (enhanceImageForOCR ⟨1, 1, [10, 20, 30, 40]⟩).data[0]?.getD 0 ≤ 255) :=
  ⟨by decide, by decide, by decide,
   enhance_formula_det_total_bounded ⟨1, 1, [10, 20, 30, 40]⟩ ⟨1, 1, [10, 20, 30, 40]⟩
     0 10 rfl (by decide) (by decide) (by decide)⟩

/-- Claim C2: the enhance transform satisfies the three boundary cases
of the spec: input 0 maps to 0, input 128 maps to 141 (140.8 rounded),
and input 255 maps to 255 (336.58 clamped). -/
theorem enhance_boundary_cases :
    enhanceChannel 0 = 0 ∧ enhanceChannel 128 = 141 ∧ enhanceChannel 255 = 255 :=
  ⟨enhanceChannel_eval_zero, enhanceChannel_eval_midpoint, enhanceChannel_eval_top⟩

/-- Claim C3: contrast-then-brightness differs from the reverse order
on some channel value in [0, 255]: at v = 100 the code transform gives
98 while the swapped-order transform gives 103. -/
theorem contrast_brightness_order_matters :
    ∃ v : ℕ, v ≤ 255 ∧ enhanceChannel v ≠ reversedChannel v :=
  ⟨100, by omega, by rw [enhanceChannel_eval_hundred, reversedChannel_eval_hundred]; omega⟩

/-- Claim C4: enhance leaves the alpha channel of every pixel and the
dimensions of the buffer (width, height, and the length of the data
array, hence the pixel count) unchanged. -/
theorem enhance_preserves_alpha_and_dims (img : ImageData) (i : ℕ)
    (halpha : i % 4 = 3) :
    (enhanceImageForOCR img).width = img.width ∧
    (enhanceImageForOCR img).height = img.height ∧
    (enhanceImageForOCR img).data.length = img.data.length ∧
    (enhanceImageForOCR img).data[i]? = img.data[i]? := by
  refine ⟨rfl, rfl, enhanceData_length img.data, ?_⟩
  show (enhanceData img.data)[i]? = _
  rw [enhanceData_getElem, if_pos halpha]

/-- Witness for C4 at a concrete one-pixel buffer and its alpha index. -/
theorem enhance_preserves_alpha_and_dims_witness :
    (3 : ℕ) % 4 = 3 ∧
    ((enhanceImageForOCR ⟨1, 1, [10, 20, 30, 40]⟩).width =
        (⟨1, 1, [10, 20, 30, 40]⟩ : ImageData).width ∧
      (enhanceImageForOCR ⟨1, 1, [10, 20, 30, 40]⟩).height =
        (⟨1, 1, [10, 20, 30, 40]⟩ : ImageData).height ∧
      (enhanceImageForOCR ⟨1, 1, [10, 20, 30, 40]⟩).data.length =
        (⟨1, 1, [10, 20, 30, 40]⟩ : ImageData).data.length ∧
      (enhanceImageForOCR ⟨1, 1, [10, 20, 30, 40]⟩).data[3]? =
        (⟨1, 1, [10, 20, 30, 40]⟩ : ImageData).data[3]?) :=
  ⟨by decide, enhance_preserves_alpha_and_dims ⟨1, 1, [10, 20, 30, 40]⟩ 3 (by decide)⟩

/-- Claim C5: in every state in which the capture session is not
active, capturePhoto fails with the not-active error, produces no
pixel buffer or captured image, and leaves the view state and all
other module state unchanged (the result state is the input state). -/
theorem capture_not_active_fails (s : ScannerState) (frame : ImageData)
    (rasterOk : Bool) (h : s.cameraActive = false) :
    capturePhoto s frame rasterOk = (s, CaptureResult.notActive) := by
  simp [capturePhoto, h]

/-- Witness for C5 at the initial state. -/
theorem capture_not_active_fails_witness :
    initState.cameraActive = false ∧
    capturePhoto initState ⟨0, 0, []⟩ true = (initState, CaptureResult.notActive) :=
  ⟨rfl, capture_not_active_fails initState ⟨0, 0, []⟩ true rfl⟩

/-- Claim C6: in every state holding no captured image, saveDocument
fails with the nothing-to-save error and performs no call to the save
endpoint (the result state, and with it the log of endpoint requests,
is unchanged). -/
theorem submit_nothing_to_save (s : ScannerState) (t f : Option String)
    (d : String) (h : s.capturedImage = none) :
    saveDocument s t f d = (s, SaveResult.nothingToSave) := by
  simp [saveDocument, h]

/-- Witness for C6 at the initial state. -/
theorem submit_nothing_to_save_witness :
    initState.capturedImage = none ∧
    saveDocument initState none none "" = (initState, SaveResult.nothingToSave) :=
  ⟨rfl, submit_nothing_to_save initState none none "" rfl⟩

/-- Claim C7: after a successful capturePhoto followed by retakePhoto,
the view state is live and the previously held captured image is
discarded, so a subsequent saveDocument without a new capture fails
with the nothing-to-save error; and retakePhoto restarts the session
by issuing exactly one acquisition request with the last-used facing. -/
theorem retake_after_capture (s : ScannerState) (frame : ImageData)
    (o : StartOutcome) (t f : Option String) (d : String)
    (h : s.cameraActive = true) :
    (capturePhoto s frame true).2 = CaptureResult.captured ∧
    (retakePhoto (capturePhoto s frame true).1 o).view = ViewState.live ∧
    (retakePhoto (capturePhoto s frame true).1 o).capturedImage = none ∧
    (saveDocument (retakePhoto (capturePhoto s frame true).1 o) t f d).2 =
      SaveResult.nothingToSave ∧
    (retakePhoto (capturePhoto s frame true).1 o).acquisitions =
      (capturePhoto s frame true).1.acquisitions ++ [s.cameraFacing] := by
  rcases hs : s.stream with _ | handle <;>
    cases o <;>
      simp [capturePhoto, h, hs, retakePhoto, startCamera, startReleaseHeld,
        stopCamera, saveDocument]

/-- Witness for C7 at a concrete active state. -/
theorem retake_after_capture_witness :
    ({ initState with cameraActive := true, stream := some 0, openStreams := 1 }
        : ScannerState).cameraActive = true ∧
    (retakePhoto
        (capturePhoto
          { initState with cameraActive := true, stream := some 0, openStreams := 1 }
          ⟨0, 0, []⟩ true).1
        StartOutcome.failure).capturedImage = none :=
  ⟨rfl,
   (retake_after_capture
      { initState with cameraActive := true, stream := some 0, openStreams := 1 }
      ⟨0, 0, []⟩ StartOutcome.failure none none "" rfl).2.2.1⟩

theorem resInv_initState : resInv initState := by
  refine ⟨rfl, ?_⟩
  intro h
  simp [initState] at h

theorem resInv_stopCamera (s : ScannerState) (h : resInv s) :
    resInv (stopCamera s) := by
  obtain ⟨h1, h2⟩ := h
  rcases s with ⟨os, st, ca, cf, ci, vw, aq, sr⟩
  rcases st with _ | k <;>
    simp_all [resInv, heldCount, stopCamera]

theorem startReleaseHeld_clear (s : ScannerState) (h : resInv s) :
    resInv (startReleaseHeld s) ∧ (startReleaseHeld s).stream = none ∧
    (startReleaseHeld s).openStreams = 0 := by
  obtain ⟨h1, h2⟩ := h
  rcases s with ⟨os, st, ca, cf, ci, vw, aq, sr⟩
  rcases st with _ | k <;>
    simp_all [resInv, heldCount, startReleaseHeld, stopCamera]

theorem resInv_startCamera (s : ScannerState) (o : StartOutcome) (h : resInv s) :
    resInv (startCamera s o) := by
  obtain ⟨hinv, hn, h0⟩ := startReleaseHeld_clear s h
  unfold startCamera
  cases o with
  | success handle =>
      refine ⟨?_, ?_⟩ <;> simp [heldCount, h0]
  | failure =>
      obtain ⟨hi1, hi2⟩ := hinv
      refine ⟨?_, ?_⟩ <;> simp [heldCount, hn, h0]
      cases hcac : (startReleaseHeld s).cameraActive
      · rfl
      · have hcontra := hi2 hcac
        rw [hn] at hcontra
        simp at hcontra

theorem resInv_switchCamera (s : ScannerState) (o : StartOutcome) (h : resInv s) :
    resInv (switchCamera s o) := by
  have h1 : resInv { s with cameraFacing := toggleFacing s.cameraFacing } :=
    ⟨by simpa [heldCount] using h.1, by simpa using h.2⟩
  by_cases hca : s.cameraActive = true
  · have : switchCamera s o =
        startCamera { s with cameraFacing := toggleFacing s.cameraFacing } o := by
      simp [switchCamera, hca]
    rw [this]
    exact resInv_startCamera _ o h1
  · have : switchCamera s o = { s with cameraFacing := toggleFacing s.cameraFacing } := by
      simp [switchCamera, hca]
    rw [this]
    exact h1

theorem resInv_capturePhoto (s : ScannerState) (frame : ImageData) (rasterOk : Bool)
    (h : resInv s) : resInv (capturePhoto s frame rasterOk).1 := by
  by_cases hca : s.cameraActive = false
  · simp [capturePhoto, hca]
    exact h
  · by_cases hok : rasterOk = false
    · simp [capturePhoto, hca, hok]
      exact h
    · have : (capturePhoto s frame rasterOk).1 =
          stopCamera { s with capturedImage := some (enhanceImageForOCR frame),
                              view := ViewState.preview } := by
        simp [capturePhoto, hca, hok]
      rw [this]
      refine resInv_stopCamera _ ?_
      exact ⟨by simpa [heldCount] using h.1, by simpa using h.2⟩

theorem resInv_applyOp (s : ScannerState) (op : Op) (h : resInv s) :
    resInv (applyOp s op) := by
  cases op with
  | start o => exact resInv_startCamera s o h
  | switch o => exact resInv_switchCamera s o h
  | stop => exact resInv_stopCamera s h
  | capture frame rasterOk => exact resInv_capturePhoto s frame rasterOk h

theorem resInv_runOps (s : ScannerState) (ops : List Op) (h : resInv s) :
    resInv (runOps s ops) := by
  induction ops generalizing s with
  | nil => exact h
  | cons op rest ih => exact ih (applyOp s op) (resInv_applyOp s op h)

/-- Claim C8: across every finite sequence of start, switch, stop and
capture operations from the initial state, at most one camera stream
resource is held at any time: the state after the sequence holds at
most one acquired stream; the release step at the top of startCamera
leaves zero streams held before the new acquisition; stopCamera
releases the held stream unconditionally (handle nulled, zero streams
left); and stopCamera is a no-op when no stream is held. -/
theorem at_most_one_stream (ops : List Op) :
    (runOps initState ops).openStreams ≤ 1 ∧
    (startReleaseHeld (runOps initState ops)).openStreams = 0 ∧
    (startReleaseHeld (runOps initState ops)).stream = none ∧
    (stopCamera (runOps initState ops)).stream = none ∧
    (stopCamera (runOps initState ops)).openStreams = 0 ∧
    ((runOps initState ops).stream = none →
      stopCamera (runOps initState ops) = runOps initState ops) := by
  have hinv := resInv_runOps initState ops resInv_initState
  obtain ⟨hrel, hreln, hrel0⟩ := startReleaseHeld_clear _ hinv
  obtain ⟨h1, h2⟩ := hinv
  refine ⟨?_, hrel0, hreln, ?_, ?_, ?_⟩
  · rw [h1]
    unfold heldCount
    split <;> omega
  · unfold stopCamera
    rcases hs : (runOps initState ops).stream with _ | k <;> simp [hs]
  · unfold stopCamera
    unfold heldCount at h1
    rcases hs : (runOps initState ops).stream with _ | k <;> simp [hs] at h1 ⊢ <;> omega
  · intro hnone
    have hact : (runOps initState ops).cameraActive = false := by
      rcases hca : (runOps initState ops).cameraActive
      · rfl
      · have hsome := h2 hca
        rw [hnone] at hsome
        simp at hsome
    rcases hrun : runOps initState ops with ⟨os, st, ca, cf, ci, v, aq, sr⟩
    rw [hrun] at hnone hact
    simp at hnone hact
    unfold stopCamera
    simp [hnone, hact]

/-- Witness for C8 on a concrete operation sequence. -/
theorem at_most_one_stream_witness :
    (runOps initState [Op.start (StartOutcome.success 5), Op.stop]).openStreams ≤ 1 ∧
    stopCamera (runOps initState [Op.start (StartOutcome.success 5), Op.stop]) =
      runOps initState [Op.start (StartOutcome.success 5), Op.stop] :=
  ⟨(at_most_one_stream [Op.start (StartOutcome.success 5), Op.stop]).1,
   (at_most_one_stream [Op.start (StartOutcome.success 5), Op.stop]).2.2.2.2.2
     (by decide)⟩

/-- Claim C9: checkCameraAvailability reports usable = false exactly
when the platform exposes no camera-access capability or enumeration
succeeds with zero video-input devices; it reports multiple = true if
and only if two or more video-input devices are enumerated; and an
error during enumeration never crashes the caller (the embedding is a
total function, and the error case yields an ordinary outcome). -/
theorem check_availability_reports (supported : Bool)
    (enumResult : Except Unit (List MediaDeviceInfo)) :
    ((checkCameraAvailability supported enumResult).usable = false ↔
      supported = false ∨
        ∃ devices, enumResult = Except.ok devices ∧
          (devices.filter (fun d => d.kind == DeviceKind.videoinput)).length = 0) ∧
    ((checkCameraAvailability supported enumResult).multiple = true ↔
      2 ≤ enumeratedVideoCount supported enumResult) := by
  cases supported
  · simp [checkCameraAvailability, enumeratedVideoCount]
  · cases enumResult with
    | error e =>
        simp [checkCameraAvailability, enumeratedVideoCount]
    | ok devices =>
        by_cases hz :
            (devices.filter (fun d => d.kind == DeviceKind.videoinput)).length = 0
        · simp [checkCameraAvailability, enumeratedVideoCount, hz]
          simpa using hz
        · simp [checkCameraAvailability, enumeratedVideoCount, hz]
          refine ⟨by simpa using hz, by omega⟩

/-- Witness for C9 on a concrete two-camera enumeration. -/
theorem check_availability_reports_witness :
    (checkCameraAvailability true
        (Except.ok [⟨DeviceKind.videoinput⟩, ⟨DeviceKind.videoinput⟩])).multiple = true :=
  (check_availability_reports true
      (Except.ok [⟨DeviceKind.videoinput⟩, ⟨DeviceKind.videoinput⟩])).2.mpr
    (by decide)

/-- Claim C10: when a captured image is held, saveDocument hands the
save endpoint exactly one request whose title is never the empty
string (an empty trimmed title input is replaced by the generated
default scan title) and whose folder id is never the empty string (an
empty folder selection is sent as null). -/
theorem submit_nonempty_title_folder (s : ScannerState) (img : ImageData)
    (t f : Option String) (d : String) (h : s.capturedImage = some img) :
    ∃ req : SaveRequest,
      (saveDocument s t f d).1.saveRequests = s.saveRequests ++ [req] ∧
      (saveDocument s t f d).2 = SaveResult.sent ∧
      req.title ≠ "" ∧
      ((match t with | some x => x.trim | none => "") = "" →
        req.title = "Скан " ++ d) ∧
      req.folder_id ≠ some "" ∧
      ((match f with | some x => x | none => "") = "" → req.folder_id = none) := by
  have hdefault : ("Скан " ++ d) ≠ "" := by
    intro heq
    have hdata := congrArg String.data heq
    simp [String.data_append] at hdata
  refine ⟨⟨img,
      if (match t with | some x => x.trim | none => "") = ""
        then "Скан " ++ d else (match t with | some x => x.trim | none => ""),
      if (match f with | some x => x | none => "") = ""
        then none else some (match f with | some x => x | none => "")⟩,
    ?_, ?_, ?_, ?_, ?_, ?_⟩
  · simp [saveDocument, h]
  · simp [saveDocument, h]
  · by_cases ht : (match t with | some x => x.trim | none => "") = "" <;>
      simp [ht, hdefault]
  · intro ht
    simp [ht]
  · by_cases hf : (match f with | some x => x | none => "") = "" <;> simp [hf]
  · intro hf
    simp [hf]

/-- Witness for C10 at a concrete state holding a captured image, with
an absent title input and an absent folder selection. -/
theorem submit_nonempty_title_folder_witness :
    ({ initState with capturedImage := some ⟨0, 0, []⟩ }
        : ScannerState).capturedImage = some ⟨0, 0, []⟩ ∧
    ∃ req : SaveRequest,
      (saveDocument { initState with capturedImage := some ⟨0, 0, []⟩ }
          none none "date").1.saveRequests =
        ({ initState with capturedImage := some ⟨0, 0, []⟩ }
            : ScannerState).saveRequests ++ [req] ∧
      (saveDocument { initState with capturedImage := some ⟨0, 0, []⟩ }
          none none "date").2 = SaveResult.sent ∧
      req.title ≠ "" ∧
      ((match (none : Option String) with | some x => x.trim | none => "") = "" →
        req.title = "Скан " ++ "date") ∧
      req.folder_id ≠ some "" ∧
      ((match (none : Option String) with | some x => x | none => "") = "" →
        req.folder_id = none) :=
  ⟨rfl,
   submit_nonempty_title_folder { initState with capturedImage := some ⟨0, 0, []⟩ }
     ⟨0, 0, []⟩ none none "date" rfl⟩

end Scanner
